import Mathlib

/-!
Shallow embedding of the cluster-registry service (`app/` of courana/localops):
the data model (`app/models/cluster.py`), the Kubernetes connector
(`app/services/kubernetes_service.py`), the Prometheus connector
(`app/services/prometheus_service.py`) and the HTTP route handlers
(`app/api/routes.py`).  Network I/O performed by the third-party client
libraries is abstracted as explicit outcome parameters (oracles); everything
the repository's own code does with those outcomes is translated faithfully.
-/

/-- Dynamic Python values, as far as this code base manipulates them:
strings, numbers, `None`, lists and string-keyed dicts. -/
inductive PyVal where
  | str : String → PyVal
  | num : Int → PyVal
  | pynone : PyVal
  | list : List PyVal → PyVal
  | dict : List (String × PyVal) → PyVal
deriving Repr

/-- A Python dict with string keys, in insertion order. -/
abbrev PyDict := List (String × PyVal)

/-- `d[k]` on a Python dict: the value at the first matching key, or a
`KeyError` (modelled as `Except.error` naming the missing key). -/
def dictGetItem (d : PyDict) (k : String) : Except String PyVal :=
  match d.find? (fun p => p.1 == k) with
  | some p => .ok p.2
  | none => .error ("KeyError: " ++ k)

/-- `d.get(k, dflt)` on a Python dict. -/
def dictGetD (d : PyDict) (k : String) (dflt : PyVal) : PyVal :=
  match d.find? (fun p => p.1 == k) with
  | some p => p.2
  | none => dflt

/-- Python `str.lower()`, character by character (the comparison target
`"deployment"` is ASCII, so ASCII lowering is exact here). -/
def pyLower (s : String) : String := String.mk (s.data.map Char.toLower)

/-- Python truthiness of an optional string (`not x` is true for both
`None` and `""`). -/
def truthy : Option String → Bool
  | none => false
  | some s => !s.isEmpty

/-- `HTTPException(status_code, detail)` raised by the route handlers. -/
structure HTTPError where
  status_code : Nat
  detail : String
deriving Repr, DecidableEq

/-- Registered cluster record (`Cluster` in `app/models/cluster.py`):
`ClusterBase` fields plus `id`, `status`, `nodes : List[Dict]`,
`namespaces : List[str]`. -/
structure Cluster where
  name : String
  description : Option String := none
  kubeconfig : String
  prometheus_url : Option String := none
  id : String
  status : String
  nodes : List PyDict
  namespaces : List String
deriving Repr

/-- Registration request body (`ClusterCreate` = `ClusterBase` in
`app/models/cluster.py`). -/
structure ClusterCreate where
  name : String
  description : Option String := none
  kubeconfig : String
  prometheus_url : Option String := none
deriving Repr

/-- Outcome of the control-plane calls issued by the Kubernetes client on
behalf of `get_cluster_info`: the node items returned by `list_node()`
(each represented by its name; only their count is used) and the namespace
names from `list_namespace()`; or the `ApiException` message. -/
abbrev ProbeOutcome := Except String (List String × List String)

/-- `KubernetesService.get_cluster_info`: on success returns the dict
`\x7b"node_count": len(nodes.items), "namespaces": [...]\x7d`; an
`ApiException` is re-raised wrapped in a fixed message. -/
def KubernetesService.get_cluster_info (probe : ProbeOutcome) : Except String PyDict :=
  match probe with
  | .error e => .error ("Ошибка получения информации о кластере: " ++ e)
  | .ok (nodeItems, nsNames) =>
      .ok [("node_count", .num nodeItems.length),
           ("namespaces", .list (nsNames.map .str))]

/-- Outcome of `config.load_kube_config` inside `KubernetesService.__init__`
(`_get_api_client`); a failure there is wrapped and re-raised. -/
abbrev InitOutcome := Except String Unit

/-- `KubernetesService._get_api_client`, as seen by callers: either the
client initializes, or the wrapped initialization error is raised. -/
def KubernetesService.init (o : InitOutcome) : Except String Unit :=
  match o with
  | .error e => .error ("Ошибка инициализации Kubernetes клиента: " ++ e)
  | .ok _ => .ok ()

/-- Pydantic field validation used when `Cluster(... nodes=v ...)` is
constructed: the value bound to `nodes : List[Dict]` must be a list of
dicts. -/
def asDictList : PyVal → Except String (List PyDict)
  | .list xs => xs.foldr (fun x acc => do
      let tl ← acc
      match x with
      | .dict d => .ok (d :: tl)
      | _ => .error "validation error: not a dict") (.ok [])
  | _ => .error "validation error: not a list"

/-- Pydantic field validation for `namespaces : List[str]`. -/
def asStrList : PyVal → Except String (List String)
  | .list xs => xs.foldr (fun x acc => do
      let tl ← acc
      match x with
      | .str s => .ok (s :: tl)
      | _ => .error "validation error: not a str") (.ok [])
  | _ => .error "validation error: not a list"

/-- `POST /clusters` (`create_cluster` in `app/api/routes.py`).  The try
block constructs a `KubernetesService` from the request kubeconfig, probes
the cluster via `get_cluster_info`, then builds the new `Cluster` with
`id = str(len(settings.CLUSTERS) + 1)`, `status="active"`, and
`nodes=cluster_info["nodes"]`, `namespaces=cluster_info["namespaces"]`
(plain dict indexing), appends it to `settings.CLUSTERS` and returns it.
Any exception is turned into `HTTPException(400, str(e))` and nothing is
appended.  Returns the updated registry and the HTTP result. -/
def create_cluster (clusters : List Cluster) (cluster : ClusterCreate)
    (initO : InitOutcome) (probe : ProbeOutcome) :
    List Cluster × Except HTTPError Cluster :=
  let attempt : Except String Cluster := do
    let _ ← KubernetesService.init initO
    let cluster_info ← KubernetesService.get_cluster_info probe
    let nodesV ← dictGetItem cluster_info "nodes"
    let namespacesV ← dictGetItem cluster_info "namespaces"
    let nodes ← asDictList nodesV
    let namespaces ← asStrList namespacesV
    .ok { name := cluster.name
          description := cluster.description
          kubeconfig := cluster.kubeconfig
          prometheus_url := cluster.prometheus_url
          id := toString (clusters.length + 1)
          status := "active"
          nodes := nodes
          namespaces := namespaces }
  match attempt with
  | .ok c => (clusters ++ [c], .ok c)
  | .error e => (clusters, .error ⟨400, e⟩)

/-- Serialization of one `Cluster` by the FastAPI `response_model`
(`List[Cluster]` on `GET /clusters`): every declared model field is
emitted, the `kubeconfig` credentials field included. -/
def serializeCluster (c : Cluster) : PyDict :=
  [("name", .str c.name),
   ("description", match c.description with | some s => .str s | none => .pynone),
   ("kubeconfig", .str c.kubeconfig),
   ("prometheus_url", match c.prometheus_url with | some s => .str s | none => .pynone),
   ("id", .str c.id),
   ("status", .str c.status),
   ("nodes", .list (c.nodes.map .dict)),
   ("namespaces", .list (c.namespaces.map .str))]

/-- `GET /clusters` (`get_clusters` in `app/api/routes.py`): returns
`settings.CLUSTERS`, serialized per the response model. -/
def get_clusters (clusters : List Cluster) : List PyDict :=
  clusters.map serializeCluster

/-- The HTTP answer the metrics endpoint observes for one Prometheus query:
status code, response text, decoded JSON body. -/
structure PromResponse where
  status : Nat
  text : String
  json : PyVal

/-- The Prometheus backend, abstracted as a map from the query expression
sent to `/api/v1/query` to the HTTP response. -/
abbrev PromBackend := String → PromResponse

/-- `PrometheusService.query`: issues one HTTP GET; a non-200 status raises
an exception carrying the response body, otherwise the JSON body is
returned. -/
def PrometheusService.query (backend : PromBackend) (q : String) : Except String PyVal :=
  let r := backend q
  if r.status ≠ 200 then .error ("Ошибка запроса к Prometheus: " ++ r.text)
  else .ok r.json

/-- The CPU query of `get_cluster_metrics`. -/
def cpuQuery (cluster_name : String) : String :=
  "sum(rate(container_cpu_usage_seconds_total\x7bcluster=\"" ++ cluster_name ++ "\"\x7d[5m]))"

/-- The memory query of `get_cluster_metrics`. -/
def memQuery (cluster_name : String) : String :=
  "sum(container_memory_usage_bytes\x7bcluster=\"" ++ cluster_name ++ "\"\x7d)"

/-- The pod-count query of `get_cluster_metrics`. -/
def podCountQuery (cluster_name : String) : String :=
  "count(kube_pod_info\x7bcluster=\"" ++ cluster_name ++ "\"\x7d)"

/-- The node-count query of `get_cluster_metrics`. -/
def nodeCountQuery (cluster_name : String) : String :=
  "count(kube_node_info\x7bcluster=\"" ++ cluster_name ++ "\"\x7d)"

/-- Label selector shared by the three pod-level queries. -/
def podSelector (cluster_name ns pod_name : String) : String :=
  "\x7bcluster=\"" ++ cluster_name ++ "\", namespace=\"" ++ ns ++ "\", pod=\"" ++ pod_name ++ "\"\x7d"

/-- The CPU query of `get_pod_metrics`. -/
def podCpuQuery (cluster_name ns pod_name : String) : String :=
  "rate(container_cpu_usage_seconds_total" ++ podSelector cluster_name ns pod_name ++ "[5m])"

/-- The memory query of `get_pod_metrics`. -/
def podMemQuery (cluster_name ns pod_name : String) : String :=
  "container_memory_usage_bytes" ++ podSelector cluster_name ns pod_name

/-- The network query of `get_pod_metrics`. -/
def podNetQuery (cluster_name ns pod_name : String) : String :=
  "rate(container_network_receive_bytes_total" ++ podSelector cluster_name ns pod_name ++ "[5m])"

/-- `PrometheusService.get_cluster_metrics`: four awaited queries in
sequence; the first raised exception aborts the whole call.  On success it
returns the dict `\x7b"timestamp": now.isoformat(), "metrics": \x7b...four raw
results...\x7d\x7d` — note the nested `"metrics"` key.  Also returns the
list of query expressions actually issued.  `now` is the wall-clock
timestamp string taken at entry. -/
def PrometheusService.get_cluster_metrics (backend : PromBackend)
    (cluster_name : String) (now : String) : List String × Except String PyDict :=
  match PrometheusService.query backend (cpuQuery cluster_name) with
  | .error e => ([cpuQuery cluster_name], .error e)
  | .ok cpu =>
    match PrometheusService.query backend (memQuery cluster_name) with
    | .error e => ([cpuQuery cluster_name, memQuery cluster_name], .error e)
    | .ok mem =>
      match PrometheusService.query backend (podCountQuery cluster_name) with
      | .error e =>
          ([cpuQuery cluster_name, memQuery cluster_name, podCountQuery cluster_name], .error e)
      | .ok pods =>
        match PrometheusService.query backend (nodeCountQuery cluster_name) with
        | .error e =>
            ([cpuQuery cluster_name, memQuery cluster_name, podCountQuery cluster_name,
              nodeCountQuery cluster_name], .error e)
        | .ok nodes =>
            ([cpuQuery cluster_name, memQuery cluster_name, podCountQuery cluster_name,
              nodeCountQuery cluster_name],
             .ok [("timestamp", .str now),
                  ("metrics", .dict [("cpu_usage", cpu), ("memory_usage", mem),
                                     ("pod_count", pods), ("node_count", nodes)])])

/-- `PrometheusService.get_pod_metrics`: three awaited queries in sequence,
same shape and failure policy as `get_cluster_metrics`. -/
def PrometheusService.get_pod_metrics (backend : PromBackend)
    (cluster_name ns pod_name : String) (now : String) :
    List String × Except String PyDict :=
  match PrometheusService.query backend (podCpuQuery cluster_name ns pod_name) with
  | .error e => ([podCpuQuery cluster_name ns pod_name], .error e)
  | .ok cpu =>
    match PrometheusService.query backend (podMemQuery cluster_name ns pod_name) with
    | .error e =>
        ([podCpuQuery cluster_name ns pod_name, podMemQuery cluster_name ns pod_name], .error e)
    | .ok mem =>
      match PrometheusService.query backend (podNetQuery cluster_name ns pod_name) with
      | .error e =>
          ([podCpuQuery cluster_name ns pod_name, podMemQuery cluster_name ns pod_name,
            podNetQuery cluster_name ns pod_name], .error e)
      | .ok net =>
          ([podCpuQuery cluster_name ns pod_name, podMemQuery cluster_name ns pod_name,
            podNetQuery cluster_name ns pod_name],
           .ok [("timestamp", .str now),
                ("metrics", .dict [("cpu", cpu), ("memory", mem), ("network", net)])])

/-- The validated `ClusterMetrics` pydantic model of
`app/models/cluster.py`: `cpu_usage`, `memory_usage`, `pod_count`,
`node_count`, `timestamp` (values kept dynamic here). -/
structure ClusterMetrics where
  cpu_usage : PyVal
  memory_usage : PyVal
  pod_count : PyVal
  node_count : PyVal
  timestamp : PyVal
deriving Repr

/-- `ClusterMetrics(**d)`: pydantic raises a validation error when a
declared field is missing from the keyword arguments.  (Pydantic also
type-checks each present field; omitting that here only makes validation
more permissive, so any failure proved of this model also occurs in the
source.) -/
def clusterMetricsOfDict (d : PyDict) : Except String ClusterMetrics := do
  let requiredField : String → Except String PyVal := fun k =>
    match d.find? (fun p => p.1 == k) with
    | some p => .ok p.2
    | none => .error ("validation error: field required: " ++ k)
  let cpu ← requiredField "cpu_usage"
  let mem ← requiredField "memory_usage"
  let pods ← requiredField "pod_count"
  let nodes ← requiredField "node_count"
  let ts ← requiredField "timestamp"
  .ok ⟨cpu, mem, pods, nodes, ts⟩

/-- `GET /clusters/\x7bcluster_id\x7d/metrics` (`get_cluster_metrics` in
`app/api/routes.py`): resolve the cluster by id (`next(...)` over
`settings.CLUSTERS`, 404 when absent), reject a falsy `prometheus_url`
with 400, then call the Prometheus service and validate the result as
`ClusterMetrics`; any exception in the try block becomes a 500.  Returns
the Prometheus queries issued together with the HTTP result. -/
def get_cluster_metrics_route (clusters : List Cluster) (backend : PromBackend)
    (now : String) (cluster_id : String) :
    List String × Except HTTPError ClusterMetrics :=
  match clusters.find? (fun c => c.id == cluster_id) with
  | none => ([], .error ⟨404, "Кластер не найден"⟩)
  | some cluster =>
    if !truthy cluster.prometheus_url then
      ([], .error ⟨400, "Prometheus URL не настроен для этого кластера"⟩)
    else
      match PrometheusService.get_cluster_metrics backend cluster.name now with
      | (qs, .error e) => (qs, .error ⟨500, e⟩)
      | (qs, .ok metrics) =>
        match clusterMetricsOfDict metrics with
        | .error e => (qs, .error ⟨500, e⟩)
        | .ok cm => (qs, .ok cm)

/-- One pod item as produced by the Kubernetes client for
`list_namespaced_pod`: name, lifecycle phase, container names in spec
order. -/
structure PodItem where
  name : String
  phase : String
  containers : List String
deriving Repr

/-- Outcome of `list_namespaced_pod` for the namespace queried. -/
abbrev PodsOutcome := Except String (List PodItem)

/-- `KubernetesService.get_pods`: maps each pod of the listing to the dict
`\x7b"name", "status", "containers"\x7d`, passing the phase through
verbatim; an `ApiException` is wrapped and re-raised. -/
def KubernetesService.get_pods (listing : PodsOutcome) : Except String (List PyDict) :=
  match listing with
  | .error e => .error ("Ошибка получения списка подов: " ++ e)
  | .ok pods =>
      .ok (pods.map (fun p =>
        [("name", .str p.name), ("status", .str p.phase),
         ("containers", .list (p.containers.map .str))]))

/-- `GET /clusters/\x7bcluster_id\x7d/pods` (`get_cluster_pods` in
`app/api/routes.py`): resolve the cluster by id (404 when absent), build a
`KubernetesService` from the stored kubeconfig and list the pods of the
requested namespace; any exception in the try block becomes a 500. -/
def get_cluster_pods_route (clusters : List Cluster) (initO : InitOutcome)
    (listing : PodsOutcome) (cluster_id : String) :
    Except HTTPError (List PyDict) :=
  match clusters.find? (fun c => c.id == cluster_id) with
  | none => .error ⟨404, "Кластер не найден"⟩
  | some _ =>
    let attempt : Except String (List PyDict) := do
      let _ ← KubernetesService.init initO
      KubernetesService.get_pods listing
    match attempt with
    | .ok pods => .ok pods
    | .error e => .error ⟨500, e⟩

/-- Parsed `metadata` mapping of a manifest document (`ns` stands for the
source's `namespace` key, a reserved word here). -/
structure ManifestMetadata where
  ns : Option String := none
deriving Repr

/-- A parsed manifest document, as far as `apply_manifest` inspects it:
`apiVersion`, `kind` and `metadata.namespace`, each possibly absent. -/
structure Manifest where
  apiVersion : Option String := none
  kind : Option String := none
  metadata : Option ManifestMetadata := none
deriving Repr

/-- Outcome of `create_namespaced_deployment`, keyed by the namespace
argument the call is made with. -/
abbrev CreateBackend := String → Except String PyVal

/-- The namespace `apply_manifest` scopes its create call to:
`manifest_dict.get("metadata", \x7b\x7d).get("namespace", "default")`. -/
def manifestNamespace (manifest : Manifest) : String :=
  ((manifest.metadata.getD { ns := none }).ns).getD "default"

/-- `KubernetesService.apply_manifest` on an already-parsed document:
computes `kind = manifest_dict.get("kind", "").lower()`; when it equals
`"deployment"` issues one `create_namespaced_deployment` scoped to
`manifestNamespace` and returns its result (a rejected call raises,
wrapped by the handler); any other kind falls through and returns `None`.
Returns the list of namespaces the create call was issued for, plus the
result. -/
def KubernetesService.apply_manifest (manifest : Manifest) (create : CreateBackend) :
    List String × Except String (Option PyVal) :=
  let _api_version := ((manifest.apiVersion.getD "").splitOn "/").headD ""
  let kind := pyLower (manifest.kind.getD "")
  if kind = "deployment" then
    let ns := manifestNamespace manifest
    match create ns with
    | .ok r => ([ns], .ok (some r))
    | .error e => ([ns], .error ("Ошибка применения манифеста: " ++ e))
  else
    ([], .ok none)

/-- `true` exactly on `Except.ok`. -/
def exceptIsOk : Except ε α → Bool
  | .ok _ => true
  | .error _ => false

/-- One attempted registration in a sequential history: the request body
plus the connector outcomes the attempt observes. -/
structure RegStep where
  req : ClusterCreate
  initO : InitOutcome
  probe : ProbeOutcome

/-- Run one registration attempt over the pair
(registry, ids returned so far by successful registrations). -/
def regStep (acc : List Cluster × List String) (s : RegStep) :
    List Cluster × List String :=
  match create_cluster acc.1 s.req s.initO s.probe with
  | (cs, .ok c) => (cs, acc.2 ++ [c.id])
  | (cs, .error _) => (cs, acc.2)

/-- Run a sequential history of registration attempts from the empty
registry; returns the final registry and the ids handed out by the
successful registrations, in order. -/
def runRegistrations (steps : List RegStep) : List Cluster × List String :=
  steps.foldl regStep ([], [])

/-- Every registration attempt, whatever the connector outcomes, leaves the
registry unchanged and answers `HTTPException(400, ...)`: when the probe
fails its wrapped error is the detail, and when the probe succeeds the
handler still raises a `KeyError` reading `cluster_info["nodes"]`, because
`get_cluster_info` returns the keys `node_count`/`namespaces`. -/
theorem create_cluster_no_ok (clusters : List Cluster) (req : ClusterCreate)
    (i : InitOutcome) (p : ProbeOutcome) :
    ∃ e, create_cluster clusters req i p = (clusters, Except.error ⟨400, e⟩) := by
  cases i with
  | error ei => exact ⟨"Ошибка инициализации Kubernetes клиента: " ++ ei, rfl⟩
  | ok u =>
    cases p with
    | error pe => exact ⟨"Ошибка получения информации о кластере: " ++ pe, rfl⟩
    | ok pr =>
      obtain ⟨nodeItems, nsNames⟩ := pr
      exact ⟨"KeyError: nodes", rfl⟩

theorem regStep_id (acc : List Cluster × List String) (s : RegStep) :
    regStep acc s = acc := by
  obtain ⟨e, h⟩ := create_cluster_no_ok acc.1 s.req s.initO s.probe
  simp [regStep, h]

theorem foldl_regStep (steps : List RegStep) (acc : List Cluster × List String) :
    steps.foldl regStep acc = acc := by
  induction steps generalizing acc with
  | nil => rfl
  | cons s rest ih => rw [List.foldl_cons, regStep_id]; exact ih acc

theorem runRegistrations_empty (steps : List RegStep) :
    runRegistrations steps = ([], []) := foldl_regStep steps ([], [])

/-- The Prometheus cluster-metrics assembly either raises, or returns the
nested two-key dict with the raw query results under `"metrics"`. -/
theorem get_cluster_metrics_shape (backend : PromBackend) (name now : String) :
    (∃ e, (PrometheusService.get_cluster_metrics backend name now).2 = .error e) ∨
    (∃ c m p n, (PrometheusService.get_cluster_metrics backend name now).2 =
      .ok [("timestamp", .str now),
           ("metrics", .dict [("cpu_usage", c), ("memory_usage", m),
                              ("pod_count", p), ("node_count", n)])]) := by
  cases h1 : PrometheusService.query backend (cpuQuery name) with
  | error e => exact Or.inl ⟨e, by simp [PrometheusService.get_cluster_metrics, h1]⟩
  | ok cpu =>
    cases h2 : PrometheusService.query backend (memQuery name) with
    | error e => exact Or.inl ⟨e, by simp [PrometheusService.get_cluster_metrics, h1, h2]⟩
    | ok mem =>
      cases h3 : PrometheusService.query backend (podCountQuery name) with
      | error e => exact Or.inl ⟨e, by simp [PrometheusService.get_cluster_metrics, h1, h2, h3]⟩
      | ok pods =>
        cases h4 : PrometheusService.query backend (nodeCountQuery name) with
        | error e =>
            exact Or.inl ⟨e, by simp [PrometheusService.get_cluster_metrics, h1, h2, h3, h4]⟩
        | ok nodes =>
            exact Or.inr ⟨cpu, mem, pods, nodes,
              by simp [PrometheusService.get_cluster_metrics, h1, h2, h3, h4]⟩

/-- `ClusterMetrics(**d)` on the two-key dict produced by the service:
the required `cpu_usage` field is absent, so validation raises. -/
theorem clusterMetricsOfDict_nested (a b : PyVal) :
    clusterMetricsOfDict [("timestamp", a), ("metrics", b)] =
    .error "validation error: field required: cpu_usage" := rfl

/-- Whenever the cluster-metrics assembly returns successfully, the dict
it returns has the nested two-key shape. -/
theorem get_cluster_metrics_ok_shape (backend : PromBackend) (name now : String)
    (qs : List String) (r : PyDict)
    (h : PrometheusService.get_cluster_metrics backend name now = (qs, .ok r)) :
    ∃ c m p n, r =
      [("timestamp", .str now),
       ("metrics", .dict [("cpu_usage", c), ("memory_usage", m),
                          ("pod_count", p), ("node_count", n)])] := by
  rcases get_cluster_metrics_shape backend name now with ⟨e, he⟩ | ⟨c, m, p, n, he⟩
  · rw [h] at he
    exact absurd he (by simp)
  · rw [h] at he
    simp only [] at he
    exact ⟨c, m, p, n, by injection he⟩

/-- C1: the claim says that on probe success `create_cluster` assigns a
fresh id, captures nodeCount/namespaces, sets status active, appends and
returns the record.  The code instead reads `cluster_info["nodes"]` while
the probe dict carries the keys `node_count`/`namespaces`, so a successful
probe (three nodes, two namespaces) still ends in a `KeyError`, an
`HTTPException(400)` and an unchanged registry: nothing is appended and no
record is returned. -/
theorem C1_register_on_probe_success_keyerror :
    create_cluster [] ⟨"prod", none, "kubeconfig-A", none⟩ (.ok ())
      (.ok (["node1", "node2", "node3"], ["default", "kube-system"])) =
    ([], .error ⟨400, "KeyError: nodes"⟩) := rfl

/-- C2: the claim says `getClusterMetrics` returns the flat snapshot
`(timestamp, cpuUsage, memoryUsage, podCount, nodeCount)` and that the
metrics endpoint returns exactly that shape on success.  In the code the
service returns the nested dict `(timestamp, metrics := (...))` (second
conjunct, shown on an all-200 backend), and the route's
`ClusterMetrics(**metrics)` therefore fails validation, so the endpoint
never returns a snapshot at all (first conjunct): every response is an
`HTTPException`. -/
theorem C2_metrics_endpoint_never_returns_snapshot :
    (∀ (clusters : List Cluster) (backend : PromBackend) (now cluster_id : String),
      exceptIsOk (get_cluster_metrics_route clusters backend now cluster_id).2 = false)
    ∧ (PrometheusService.get_cluster_metrics (fun _ => ⟨200, "", .pynone⟩) "prod" "t0").2 =
      .ok [("timestamp", .str "t0"),
           ("metrics", .dict [("cpu_usage", .pynone), ("memory_usage", .pynone),
                              ("pod_count", .pynone), ("node_count", .pynone)])] := by
  constructor
  · intro clusters backend now cluster_id
    unfold get_cluster_metrics_route
    split
    · rfl
    · split
      · rfl
      · split
        · rfl
        · rename_i qs metrics heq
          obtain ⟨c, m, p, n, hr⟩ := get_cluster_metrics_ok_shape _ _ _ _ _ heq
          subst hr
          rw [clusterMetricsOfDict_nested]
          rfl
  · rfl

/-- C3: on probe failure (whether the Kubernetes client fails to
initialize or the control-plane listing raises), registration answers
`HTTPException(400, ...)` carrying the wrapped probe error detail, the
registry is unchanged, and a subsequent `GET /clusters` serialization is
identical to the one before the attempt — no partial insert. -/
theorem C3_register_probe_failure_no_partial_insert
    (clusters : List Cluster) (req : ClusterCreate) (d : String) (p : ProbeOutcome) :
    create_cluster clusters req (.ok ()) (.error d) =
      (clusters, .error ⟨400, "Ошибка получения информации о кластере: " ++ d⟩)
    ∧ create_cluster clusters req (.error d) p =
      (clusters, .error ⟨400, "Ошибка инициализации Kubernetes клиента: " ++ d⟩)
    ∧ get_clusters (create_cluster clusters req (.ok ()) (.error d)).1 = get_clusters clusters :=
  ⟨rfl, rfl, rfl⟩

/-- C4: the claim quantifies over sequences of successful registrations
and asserts insertion order and id uniqueness.  In the code no
registration can ever succeed: whatever the request and whatever the
connector outcomes, `create_cluster` answers an error and leaves the
registry untouched (the happy path dies on `cluster_info["nodes"]`), so
the claimed sequences do not exist. -/
theorem C4_no_registration_ever_succeeds (clusters : List Cluster)
    (req : ClusterCreate) (i : InitOutcome) (p : ProbeOutcome) :
    (create_cluster clusters req i p).1 = clusters ∧
    exceptIsOk (create_cluster clusters req i p).2 = false := by
  obtain ⟨e, h⟩ := create_cluster_no_ok clusters req i p
  rw [h]
  exact ⟨rfl, rfl⟩

/-- A Prometheus backend for the witness: the two CPU queries answer 500,
every other query answers 200. -/
def failingBackend : PromBackend := fun q =>
  if q == cpuQuery "prod" || q == podCpuQuery "prod" "default" "web-1" then
    ⟨500, "boom", .pynone⟩
  else ⟨200, "", .pynone⟩

/-- C5: all-or-nothing metrics assembly.  If any one of the four cluster
queries (respectively three pod queries) comes back with a non-200 status,
the whole `get_cluster_metrics` (respectively `get_pod_metrics`) call
raises the Prometheus query error and produces no snapshot dict. -/
theorem C5_any_query_failure_fails_whole_call (backend : PromBackend)
    (name ns pod now : String) :
    ((backend (cpuQuery name)).status ≠ 200 ∨ (backend (memQuery name)).status ≠ 200 ∨
     (backend (podCountQuery name)).status ≠ 200 ∨
     (backend (nodeCountQuery name)).status ≠ 200 →
      ∃ t, (PrometheusService.get_cluster_metrics backend name now).2 =
        .error ("Ошибка запроса к Prometheus: " ++ t))
    ∧ ((backend (podCpuQuery name ns pod)).status ≠ 200 ∨
       (backend (podMemQuery name ns pod)).status ≠ 200 ∨
       (backend (podNetQuery name ns pod)).status ≠ 200 →
      ∃ t, (PrometheusService.get_pod_metrics backend name ns pod now).2 =
        .error ("Ошибка запроса к Prometheus: " ++ t)) := by
  constructor
  · intro h
    by_cases h1 : (backend (cpuQuery name)).status = 200
    · by_cases h2 : (backend (memQuery name)).status = 200
      · by_cases h3 : (backend (podCountQuery name)).status = 200
        · by_cases h4 : (backend (nodeCountQuery name)).status = 200
          · rcases h with h | h | h | h <;> [exact absurd h1 h; exact absurd h2 h;
              exact absurd h3 h; exact absurd h4 h]
          · exact ⟨(backend (nodeCountQuery name)).text,
              by simp [PrometheusService.get_cluster_metrics, PrometheusService.query,
                       h1, h2, h3, h4]⟩
        · exact ⟨(backend (podCountQuery name)).text,
            by simp [PrometheusService.get_cluster_metrics, PrometheusService.query,
                     h1, h2, h3]⟩
      · exact ⟨(backend (memQuery name)).text,
          by simp [PrometheusService.get_cluster_metrics, PrometheusService.query, h1, h2]⟩
    · exact ⟨(backend (cpuQuery name)).text,
        by simp [PrometheusService.get_cluster_metrics, PrometheusService.query, h1]⟩
  · intro h
    by_cases h1 : (backend (podCpuQuery name ns pod)).status = 200
    · by_cases h2 : (backend (podMemQuery name ns pod)).status = 200
      · by_cases h3 : (backend (podNetQuery name ns pod)).status = 200
        · rcases h with h | h | h <;> [exact absurd h1 h; exact absurd h2 h; exact absurd h3 h]
        · exact ⟨(backend (podNetQuery name ns pod)).text,
            by simp [PrometheusService.get_pod_metrics, PrometheusService.query, h1, h2, h3]⟩
      · exact ⟨(backend (podMemQuery name ns pod)).text,
          by simp [PrometheusService.get_pod_metrics, PrometheusService.query, h1, h2]⟩
    · exact ⟨(backend (podCpuQuery name ns pod)).text,
        by simp [PrometheusService.get_pod_metrics, PrometheusService.query, h1]⟩

/-- C5 witness: with a backend whose CPU queries answer 500, both calls
fail with the Prometheus query error. -/
theorem C5_witness :
    ((failingBackend (cpuQuery "prod")).status ≠ 200 ∧
      ∃ t, (PrometheusService.get_cluster_metrics failingBackend "prod" "t0").2 =
        .error ("Ошибка запроса к Prometheus: " ++ t))
    ∧ ((failingBackend (podCpuQuery "prod" "default" "web-1")).status ≠ 200 ∧
      ∃ t, (PrometheusService.get_pod_metrics failingBackend "prod" "default" "web-1" "t0").2 =
        .error ("Ошибка запроса к Prometheus: " ++ t)) :=
  ⟨⟨by decide,
    (C5_any_query_failure_fails_whole_call failingBackend "prod" "default" "web-1" "t0").1
      (Or.inl (by decide))⟩,
   ⟨by decide,
    (C5_any_query_failure_fails_whole_call failingBackend "prod" "default" "web-1" "t0").2
      (Or.inl (by decide))⟩⟩

/-- C6: `apply_manifest` with a kind that lowercases to `"deployment"`
issues exactly one create-deployment call, scoped to
`metadata.namespace` with default `"default"`, and returns that call's
result; any other kind issues zero control-plane calls and returns
`None`. -/
theorem C6_apply_manifest_dispatch (manifest : Manifest) (create : CreateBackend) :
    (pyLower (manifest.kind.getD "") = "deployment" →
      (KubernetesService.apply_manifest manifest create).1 = [manifestNamespace manifest] ∧
      ∀ r, create (manifestNamespace manifest) = .ok r →
        (KubernetesService.apply_manifest manifest create).2 = .ok (some r))
    ∧ (pyLower (manifest.kind.getD "") ≠ "deployment" →
      KubernetesService.apply_manifest manifest create = ([], .ok none)) := by
  constructor
  · intro hk
    constructor
    · cases hc : create (manifestNamespace manifest) with
      | ok r => simp [KubernetesService.apply_manifest, hk, hc]
      | error e => simp [KubernetesService.apply_manifest, hk, hc]
    · intro r hr
      simp [KubernetesService.apply_manifest, hk, hr]
  · intro hk
    simp [KubernetesService.apply_manifest, hk]

/-- C6 witness: a mixed-case Deployment manifest with namespace `web`
issues one call to `web` and returns the created object; a Service
manifest issues no call and returns `None`. -/
theorem C6_witness :
    (pyLower ((Manifest.mk (some "apps/v1") (some "DePloyMent")
        (some { ns := some "web" })).kind.getD "") = "deployment" ∧
     (KubernetesService.apply_manifest
        (Manifest.mk (some "apps/v1") (some "DePloyMent") (some { ns := some "web" }))
        (fun _ => .ok (.str "created"))).1 = ["web"] ∧
     (KubernetesService.apply_manifest
        (Manifest.mk (some "apps/v1") (some "DePloyMent") (some { ns := some "web" }))
        (fun _ => .ok (.str "created"))).2 = .ok (some (.str "created")))
    ∧ KubernetesService.apply_manifest (Manifest.mk (some "v1") (some "Service") none)
        (fun _ => .ok (.str "created")) = ([], .ok none) := by
  refine ⟨⟨by rfl, ?_, ?_⟩, ?_⟩
  · exact ((C6_apply_manifest_dispatch _ _).1 (by rfl)).1
  · exact ((C6_apply_manifest_dispatch _ _).1 (by rfl)).2 (.str "created") rfl
  · exact (C6_apply_manifest_dispatch _ _).2 (by decide)

/-- C7: after any sequential history of registration attempts, asking the
metrics or pods endpoint for an id that no successful registration
returned yields `HTTPException(404)` and no record. -/
theorem C7_unknown_id_not_found (steps : List RegStep) (cluster_id : String)
    (backend : PromBackend) (now : String) (initO : InitOutcome) (listing : PodsOutcome)
    (_h : cluster_id ∉ (runRegistrations steps).2) :
    get_cluster_metrics_route (runRegistrations steps).1 backend now cluster_id =
      ([], .error ⟨404, "Кластер не найден"⟩)
    ∧ get_cluster_pods_route (runRegistrations steps).1 initO listing cluster_id =
      .error ⟨404, "Кластер не найден"⟩ := by
  rw [runRegistrations_empty]
  exact ⟨rfl, rfl⟩

/-- C7 witness: the empty history hands out no ids, and both endpoints
answer 404 for id `c1`. -/
theorem C7_witness :
    ("c1" ∉ (runRegistrations []).2) ∧
    (get_cluster_metrics_route (runRegistrations []).1 (fun _ => ⟨200, "", .pynone⟩) "t0" "c1" =
      ([], .error ⟨404, "Кластер не найден"⟩)
     ∧ get_cluster_pods_route (runRegistrations []).1 (.ok ()) (.ok []) "c1" =
      .error ⟨404, "Кластер не найден"⟩) :=
  ⟨by decide,
   C7_unknown_id_not_found [] "c1" (fun _ => ⟨200, "", .pynone⟩) "t0" (.ok ()) (.ok [])
     (by decide)⟩

/-- A registered cluster whose kubeconfig is a secret, for exercising the
`GET /clusters` serialization. -/
def leakedCluster : Cluster :=
  { name := "prod", description := none, kubeconfig := "super-secret-credentials",
    prometheus_url := none, id := "1", status := "active", nodes := [], namespaces := [] }

/-- C8 counterexample: the claim says no registered cluster's credentials
value appears in the `GET /clusters` response.  With `leakedCluster` in
the registry, the serialized response contains the pair
`("kubeconfig", "super-secret-credentials")` verbatim. -/
theorem C8_counterexample_credentials_serialized :
    ∃ rec ∈ get_clusters [leakedCluster],
      ("kubeconfig", PyVal.str "super-secret-credentials") ∈ rec := by
  refine ⟨serializeCluster leakedCluster, ?_, ?_⟩
  · simp [get_clusters]
  · simp [serializeCluster, leakedCluster]

/-- C8 (amended): the serialized `GET /clusters` response includes, for
every registered cluster, its `kubeconfig` credentials field verbatim —
nothing is excluded or redacted. -/
theorem C8_amended_credentials_leak (clusters : List Cluster) (c : Cluster)
    (h : c ∈ clusters) :
    serializeCluster c ∈ get_clusters clusters ∧
    ("kubeconfig", PyVal.str c.kubeconfig) ∈ serializeCluster c := by
  constructor
  · simp only [get_clusters]
    exact List.mem_map_of_mem serializeCluster h
  · simp [serializeCluster]

/-- C8 witness: instantiation of the amended claim at `leakedCluster`. -/
theorem C8_witness :
    leakedCluster ∈ [leakedCluster] ∧
    (serializeCluster leakedCluster ∈ get_clusters [leakedCluster] ∧
     ("kubeconfig", PyVal.str leakedCluster.kubeconfig) ∈ serializeCluster leakedCluster) :=
  ⟨List.mem_singleton.mpr rfl,
   C8_amended_credentials_leak [leakedCluster] leakedCluster (List.mem_singleton.mpr rfl)⟩

/-- A registered cluster with no `prometheus_url`. -/
def unmetricCluster : Cluster :=
  { name := "prod", description := none, kubeconfig := "kc",
    prometheus_url := none, id := "1", status := "active", nodes := [], namespaces := [] }

/-- C9: when the id resolves to a registered cluster whose
`prometheus_url` is absent, the metrics endpoint answers
`HTTPException(400)` — a client-fault status, not a 5xx — and issues no
Prometheus query (the issued-query list is empty). -/
theorem C9_missing_metrics_endpoint_client_fault (clusters : List Cluster)
    (backend : PromBackend) (now cluster_id : String) (c : Cluster)
    (hfind : clusters.find? (fun x => x.id == cluster_id) = some c)
    (hurl : c.prometheus_url = none) :
    get_cluster_metrics_route clusters backend now cluster_id =
      ([], .error ⟨400, "Prometheus URL не настроен для этого кластера"⟩) := by
  unfold get_cluster_metrics_route
  rw [hfind]
  simp [truthy, hurl]

/-- C9 witness: the endpoint for `unmetricCluster` answers 400 with no
query issued. -/
theorem C9_witness :
    ([unmetricCluster].find? (fun x => x.id == "1") = some unmetricCluster) ∧
    unmetricCluster.prometheus_url = none ∧
    get_cluster_metrics_route [unmetricCluster] (fun _ => ⟨200, "", .pynone⟩) "t0" "1" =
      ([], .error ⟨400, "Prometheus URL не настроен для этого кластера"⟩) :=
  ⟨rfl, rfl,
   C9_missing_metrics_endpoint_client_fault [unmetricCluster] (fun _ => ⟨200, "", .pynone⟩)
     "t0" "1" unmetricCluster rfl rfl⟩

/-- A registered cluster whose `prometheus_url` is the empty string. -/
def emptyUrlCluster : Cluster :=
  { name := "prod", description := none, kubeconfig := "kc",
    prometheus_url := some "", id := "1", status := "active", nodes := [], namespaces := [] }

/-- C10: the presence check is Python truthiness, so an empty-string
`prometheus_url` is indistinguishable from an absent one: same falsy
check, and the metrics endpoint answers the same 400 response with no
Prometheus query issued. -/
theorem C10_empty_metrics_endpoint_like_absent (clusters : List Cluster)
    (backend : PromBackend) (now cluster_id : String) (c : Cluster)
    (hfind : clusters.find? (fun x => x.id == cluster_id) = some c)
    (hurl : c.prometheus_url = some "") :
    truthy (some "") = truthy none ∧
    get_cluster_metrics_route clusters backend now cluster_id =
      ([], .error ⟨400, "Prometheus URL не настроен для этого кластера"⟩) := by
  refine ⟨rfl, ?_⟩
  unfold get_cluster_metrics_route
  rw [hfind]
  simp [truthy, hurl]
  exact fun hc => absurd hc (by decide)

/-- C10 witness: the endpoint for `emptyUrlCluster` answers 400 with no
query issued. -/
theorem C10_witness :
    ([emptyUrlCluster].find? (fun x => x.id == "1") = some emptyUrlCluster) ∧
    emptyUrlCluster.prometheus_url = some "" ∧
    get_cluster_metrics_route [emptyUrlCluster] (fun _ => ⟨200, "", .pynone⟩) "t0" "1" =
      ([], .error ⟨400, "Prometheus URL не настроен для этого кластера"⟩) :=
  ⟨rfl, rfl,
   (C10_empty_metrics_endpoint_like_absent [emptyUrlCluster] (fun _ => ⟨200, "", .pynone⟩)
     "t0" "1" emptyUrlCluster rfl rfl).2⟩
